import Mathlib

/-!
Verification of `frdrpc/close_recommendations.go` (faraday).

The file shallowly embeds the two request parsers
(`parseRecommendationRequest`, `parseOutlierRequest`) and the response
builder (`rpcResponse`) of that source file, together with the pieces of
the `recommend` package they mention (modelled from the spec where the
package itself is not among the sources), and proves the stated
properties about them.

Modelling conventions:
* Go machine integers (`int`, `int32`, `int64`, `time.Duration`) are
  `Int` together with explicit two's-complement wrap-around (`wrap32`,
  `wrap64`) at every point where Go narrows or can overflow.
* Finite IEEE-754 floating point values (`float32`, `float64`) are exact
  rationals; every finite float is a rational, float comparison agrees
  with the rational order, and the `float32(x)` narrowing performed by
  `rpcResponse` is the rounding function `f32round` defined below.
* The Go map `report.Recommendations` is represented by the sequence of
  key/value pairs in the order the `range` loop visits them; Go
  randomises that order, so every permutation of the entries is a
  possible iteration of the same map.
* `sort.SliceStable(x, less)` is, by its contract, the unique stable
  ascending reordering with respect to `less`; it is embedded as the
  canonical stable sort `List.insertionSort` over the complement
  relation `le a b := ¬ less b a`, i.e. `a.Value ≤ b.Value`.
* The `context.Context`/`Config` parameters and the `ChannelInsights`
  closure stored in the config (external I/O collaborators, out of the
  computational scope) are elided from the embedded config record.
-/

-- Rational arithmetic is irreducible in the library; re-enable
-- definitional reduction so that concrete rational facts can be settled
-- by decide.
attribute [local semireducible] Rat.add Rat.mul Rat.inv Rat.sub Rat.ofScientific

/-- Signed two's-complement wrap-around into 32 bits: the value of Go's
`int32(x)` conversion applied to a 64-bit `int` value `x`.
`18446744073709551616 = 2 ^ 64` is not used here; this is the 32-bit case,
`4294967296 = 2 ^ 32`, and `Int.bmod` lands in `[-2^31, 2^31)`. -/
def wrap32 (x : Int) : Int := Int.bmod x 4294967296

/-- Signed two's-complement wrap-around into 64 bits
(`18446744073709551616 = 2 ^ 64`): the result of any Go `int64`
arithmetic operation whose mathematical value is `x`.  `Int.bmod` lands
in `[-2^63, 2^63)`. -/
def wrap64 (x : Int) : Int := Int.bmod x 18446744073709551616

/-- Fuelled floor-of-log2 worker: `log2fuel fuel n` counts how often `n`
can be halved before dropping below `2`, provided `fuel` bounds the
number of halvings.  Structural recursion on the fuel keeps the function
kernel-computable. -/
def log2fuel : Nat → Nat → Nat
  | 0, _ => 0
  | fuel + 1, n => if 2 ≤ n then log2fuel fuel (n / 2) + 1 else 0

/-- Floor of the base-2 logarithm of a natural number (`natLog2 0 = 0`):
`n` itself is always enough fuel. -/
def natLog2 (n : Nat) : Nat := log2fuel n n

/-- Integer power of two as a rational, for both signs of the
exponent. -/
def qpow2 (e : Int) : ℚ := if 0 ≤ e then (2 : ℚ) ^ e.toNat else 1 / (2 : ℚ) ^ (-e).toNat

/-- Floor of the base-2 logarithm of a positive rational: the unique `e`
with `2 ^ e ≤ x < 2 ^ (e + 1)`.  The candidate from the bit lengths of
numerator and denominator is off by at most one and is corrected by a
single comparison. -/
def flog2 (x : ℚ) : Int :=
  let a : Int := natLog2 x.num.toNat
  let b : Int := natLog2 x.den
  let e : Int := a - b
  if qpow2 e ≤ x then e else e - 1

/-- Model of the IEEE-754 `binary32` narrowing `float32(v)` that
`rpcResponse` applies to each recommendation's `float64` metric value:
the magnitude is rounded to 24 significand bits (round to nearest, ties
to even), which is exactly representable as a rational.  Exponent
overflow to infinity and subnormal underflow are outside the modelled
(normal, finite) range; the values handled by the code are metric values
of real channels, far inside that range. -/
def f32round (x : ℚ) : ℚ :=
  if x = 0 then 0
  else
    let ax : ℚ := |x|
    let sign : ℚ := if x < 0 then -1 else 1
    let ulp : ℚ := qpow2 (flog2 ax - 23)
    let n : Int := ⌊ax / ulp⌋
    let r : ℚ := ax / ulp - (n : ℚ)
    let m : Int := if r < 1 / 2 then n else if 1 / 2 < r then n + 1 else if n % 2 = 0 then n else n + 1
    sign * (m : ℚ) * ulp

namespace Recommend

/-- Modelled from the spec: an entry of the `recommend` package's report
map (the `recommend` package is not among the given sources; spec §3
"Recommendation": metric value and boolean recommend-close flag — the
channel identity is the map key).  `rpcResponse` reads exactly the
fields `Value` (a `float64`, an exact rational here) and
`RecommendClose`. -/
structure Recommendation where
  Value : ℚ
  RecommendClose : Bool
  deriving DecidableEq

/-- Modelled from the spec: the `recommend` package's `Report` (spec §3
"Report" and §4.5; the package is not among the given sources), as
consumed by `rpcResponse`: total channel count, considered channel
count (Go `int` values), and the recommendations map keyed by channel
point.  The Go `map[string]Recommendation` is represented by its
iteration sequence, an association list; Go randomises map iteration
order, so any permutation of the same entries is a possible iteration of
the same report. -/
structure Report where
  TotalChannels : Int
  ConsideredChannels : Int
  Recommendations : List (String × Recommendation)
  deriving DecidableEq

/-- Modelled from the spec: `recommend.DefaultOutlierMultiplier` (the
`recommend` package is not among the given sources); the spec fixes the
default outlier multiplier at `1.5`. -/
def DefaultOutlierMultiplier : ℚ := 3 / 2

end Recommend

namespace Frdrpc

/-- Proto message `CloseRecommendationRequest`: `minimum_monitored` is an
`int64` number of seconds and `metric` a proto3 enum, i.e. an open
`int32` value with the five named variants below (plus `UNKNOWN = 0`). -/
structure CloseRecommendationRequest where
  MinimumMonitored : Int
  Metric : Int
  deriving DecidableEq

/-- Enum value `CloseRecommendationRequest_UNKNOWN` of the generated
proto code. -/
def CloseRecommendationRequest_UNKNOWN : Int := 0

/-- Enum value `CloseRecommendationRequest_UPTIME`. -/
def CloseRecommendationRequest_UPTIME : Int := 1

/-- Enum value `CloseRecommendationRequest_REVENUE`. -/
def CloseRecommendationRequest_REVENUE : Int := 2

/-- Enum value `CloseRecommendationRequest_INCOMING_VOLUME`. -/
def CloseRecommendationRequest_INCOMING_VOLUME : Int := 3

/-- Enum value `CloseRecommendationRequest_OUTGOING_VOLUME`. -/
def CloseRecommendationRequest_OUTGOING_VOLUME : Int := 4

/-- Enum value `CloseRecommendationRequest_TOTAL_VOLUME`. -/
def CloseRecommendationRequest_TOTAL_VOLUME : Int := 5

/-- Proto message `OutlierRecommendationsRequest`: the common request
plus the `float` (binary32) field `outlier_multiplier`; a finite
`float32` value is an exact rational. -/
structure OutlierRecommendationsRequest where
  RecRequest : CloseRecommendationRequest
  OutlierMultiplier : ℚ
  deriving DecidableEq

/-- Modelled from the spec: the metric selectors of the `recommend`
package named by `close_recommendations.go` (`recommend.UptimeMetric`,
`recommend.RevenueMetric`, `recommend.IncomingVolume`,
`recommend.OutgoingVolume`, `recommend.Volume`; the package is not among
the given sources).  Spec §3 "MetricSelector": an enumerated variant
over exactly these five values. -/
inductive MetricKind
  | UptimeMetric
  | RevenueMetric
  | IncomingVolume
  | OutgoingVolume
  | Volume
  deriving DecidableEq

/-- Modelled from the spec: `recommend.CloseRecommendationConfig` as
populated by the parser (the `recommend` package is not among the given
sources).  `MinimumMonitored` is a `time.Duration`, i.e. an `int64`
count of nanoseconds.  `Metric` starts out as the struct's zero value —
per the spec's design notes, the `switch` in the source has no default
case and silently leaves the field's zero value in place for unknown
metrics — modelled as `none`, with `some` for each selector the switch
installs.  The `ChannelInsights` closure (external I/O collaborator) is
elided. -/
structure CloseRecommendationConfig where
  MinimumMonitored : Int
  Metric : Option MetricKind
  deriving DecidableEq

/-- Embedding of `parseRecommendationRequest` (close_recommendations.go
lines 14-47).  The config is created with
`MinimumMonitored: time.Second * time.Duration(req.MinimumMonitored)` —
an `int64` product of `10^9` with the requested second count, wrapping
on overflow — and the `switch req.Metric` installs the matching metric
selector, leaving the zero value in place when no case matches. -/
def parseRecommendationRequest (req : CloseRecommendationRequest) : CloseRecommendationConfig :=
  { MinimumMonitored := wrap64 (1000000000 * req.MinimumMonitored),
    Metric :=
      if req.Metric = CloseRecommendationRequest_UPTIME then some MetricKind.UptimeMetric
      else if req.Metric = CloseRecommendationRequest_REVENUE then some MetricKind.RevenueMetric
      else if req.Metric = CloseRecommendationRequest_INCOMING_VOLUME then some MetricKind.IncomingVolume
      else if req.Metric = CloseRecommendationRequest_OUTGOING_VOLUME then some MetricKind.OutgoingVolume
      else if req.Metric = CloseRecommendationRequest_TOTAL_VOLUME then some MetricKind.Volume
      else none }

/-- Embedding of `parseOutlierRequest` (close_recommendations.go lines
51-62): the multiplier starts at `recommend.DefaultOutlierMultiplier`
and is replaced by `float64(req.OutlierMultiplier)` whenever that field
is non-zero (the `float32` → `float64` widening is exact).  No
validation of the multiplier is performed. -/
def parseOutlierRequest (req : OutlierRecommendationsRequest) : CloseRecommendationConfig × ℚ :=
  let multiplier : ℚ := Recommend.DefaultOutlierMultiplier
  let multiplier : ℚ := if req.OutlierMultiplier ≠ 0 then req.OutlierMultiplier else multiplier
  (parseRecommendationRequest req.RecRequest, multiplier)

/-- Proto message `Recommendation`: channel point, the `float`
(binary32) metric value as stored by `rpcResponse`, and the
recommend-close flag. -/
structure Recommendation where
  ChanPoint : String
  Value : ℚ
  RecommendClose : Bool
  deriving DecidableEq

/-- Proto message `CloseRecommendationsResponse`: the two `int32`
counts and the recommendation list. -/
structure CloseRecommendationsResponse where
  TotalChannels : Int
  ConsideredChannels : Int
  Recommendations : List Recommendation
  deriving DecidableEq

/-- Body of the assembly loop of `rpcResponse` (lines 83-91): one
response `Recommendation` per visited map entry, narrowing the `float64`
metric value to `float32`. -/
def toRpcRecommendation (p : String × Recommend.Recommendation) : Recommendation :=
  { ChanPoint := p.1, Value := f32round p.2.Value, RecommendClose := p.2.RecommendClose }

/-- The recommendation list as assembled by the loop of `rpcResponse`,
in map-iteration order, before sorting. -/
def assembled (report : Recommend.Report) : List Recommendation :=
  report.Recommendations.map toRpcRecommendation

/-- Comparison used by the `sort.SliceStable` call of `rpcResponse`
(lines 94-97), complemented: the call sorts so that
`resp.Recommendations[i].Value < resp.Recommendations[j].Value` never
holds for `j < i`, i.e. ascending with respect to `Value`. -/
def recLe (a b : Recommendation) : Prop := a.Value ≤ b.Value

instance : DecidableRel recLe := fun a b => inferInstanceAs (Decidable (a.Value ≤ b.Value))

instance : IsTotal Recommendation recLe := ⟨fun a b => le_total a.Value b.Value⟩

instance : IsTrans Recommendation recLe := ⟨fun _ _ _ h1 h2 => le_trans h1 h2⟩

instance : IsRefl Recommendation recLe := ⟨fun a => le_refl a.Value⟩

/-- Embedding of the `sort.SliceStable` call of `rpcResponse`: the
stable ascending sort by `Value`.  `sort.SliceStable`'s contract (sorted
with respect to `less`, equal elements keep their original order)
determines the output uniquely, so any stable sort — here the canonical
`List.insertionSort` — is extensionally the same function. -/
def sortRecs (l : List Recommendation) : List Recommendation := List.insertionSort recLe l

/-- Embedding of `rpcResponse` (close_recommendations.go lines 77-100):
the two counts are narrowed with `int32(...)`, the loop assembles one
entry per map entry in iteration order, and the result is stably sorted
ascending by (narrowed) value. -/
def rpcResponse (report : Recommend.Report) : CloseRecommendationsResponse :=
  { TotalChannels := wrap32 report.TotalChannels,
    ConsideredChannels := wrap32 report.ConsideredChannels,
    Recommendations := sortRecs (assembled report) }

/-- Program state for the statement-level reading of `rpcResponse`: the
`report` the argument pointer refers to, and the response object under
construction (`none` before the allocation on line 78). -/
structure RpcState where
  report : Recommend.Report
  resp : Option CloseRecommendationsResponse
  deriving DecidableEq

/-- Statement 1 of `rpcResponse` (lines 78-81): allocate the response
and store the two narrowed counts; writes only `resp`. -/
def stmtAllocResp (s : RpcState) : RpcState :=
  let r : CloseRecommendationsResponse :=
    { TotalChannels := wrap32 s.report.TotalChannels,
      ConsideredChannels := wrap32 s.report.ConsideredChannels,
      Recommendations := [] }
  { s with resp := some r }

/-- Statement 2 of `rpcResponse` (lines 83-91): the `range` loop,
appending one assembled entry per visited map entry to
`resp.Recommendations`; reads the report, writes only `resp`. -/
def stmtAppendLoop (s : RpcState) : RpcState :=
  { s with resp := s.resp.map (fun r0 =>
      s.report.Recommendations.foldl
        (fun r p => { r with Recommendations := r.Recommendations ++ [toRpcRecommendation p] }) r0) }

/-- Statement 3 of `rpcResponse` (lines 94-97): the `sort.SliceStable`
call, reordering `resp.Recommendations` in place; writes only `resp`. -/
def stmtSortRecommendations (s : RpcState) : RpcState :=
  { s with resp := s.resp.map (fun r => { r with Recommendations := sortRecs r.Recommendations }) }

/-- The whole body of `rpcResponse` as a state transformer: the three
statements in program order. -/
def rpcResponseProg (s : RpcState) : RpcState :=
  stmtSortRecommendations (stmtAppendLoop (stmtAllocResp s))

end Frdrpc

/-- Narrowing to `int32` is the identity on values already in the
`int32` range `[-2^31, 2^31)`. -/
theorem wrap32_eq_self (x : Int) (h1 : -2147483648 ≤ x) (h2 : x < 2147483648) : wrap32 x = x := by
  unfold wrap32
  rw [Int.bmod_def]
  norm_num
  omega

/-- Wrapping into `int64` is the identity on values already in the
`int64` range `[-2^63, 2^63)`. -/
theorem wrap64_eq_self (x : Int) (h1 : -9223372036854775808 ≤ x) (h2 : x < 9223372036854775808) :
    wrap64 x = x := by
  unfold wrap64
  rw [Int.bmod_def]
  norm_num
  omega

/-- Every wrapped 64-bit value is at least `-2^63`. -/
theorem wrap64_lb (x : Int) : -9223372036854775808 ≤ wrap64 x := by
  have := Int.le_bmod (x := x) (m := 18446744073709551616) (by norm_num)
  unfold wrap64
  omega

/-- Every wrapped 64-bit value is below `2^63`. -/
theorem wrap64_ub (x : Int) : wrap64 x < 9223372036854775808 := by
  have := Int.bmod_lt (x := x) (m := 18446744073709551616) (by norm_num)
  unfold wrap64
  omega

namespace Frdrpc

/-- The sort performed by `rpcResponse` produces a list that is sorted
ascending by value. -/
theorem sortRecs_sorted (l : List Recommendation) : (sortRecs l).Pairwise recLe :=
  List.sorted_insertionSort recLe l

/-- The sort performed by `rpcResponse` is a permutation: no entry is
dropped, duplicated or invented. -/
theorem sortRecs_perm (l : List Recommendation) : List.Perm (sortRecs l) l :=
  List.perm_insertionSort recLe l

/-- Stability of the sort performed by `rpcResponse`: the elements of
any fixed value class appear in the output exactly as they appear in
the input. -/
theorem sortRecs_filter_value (v : ℚ) (l : List Recommendation) :
    (sortRecs l).filter (fun rec => rec.Value == v) = l.filter (fun rec => rec.Value == v) := by
  have hpw : (l.filter (fun rec => rec.Value == v)).Pairwise recLe := by
    apply List.pairwise_of_forall_mem_list
    intro a ha b hb
    have ha' := List.of_mem_filter ha
    have hb' := List.of_mem_filter hb
    simp only [beq_iff_eq] at ha' hb'
    show a.Value ≤ b.Value
    rw [ha', hb']
  have h2 : List.Sublist (l.filter (fun rec => rec.Value == v)) (sortRecs l) :=
    List.sublist_insertionSort hpw (List.filter_sublist l)
  have h3 := h2.filter (fun rec => rec.Value == v)
  rw [List.filter_filter] at h3
  simp only [Bool.and_self] at h3
  have h4 : ((sortRecs l).filter (fun rec => rec.Value == v)).length
      = (l.filter (fun rec => rec.Value == v)).length :=
    ((sortRecs_perm l).filter (fun rec => rec.Value == v)).length_eq
  exact (h3.eq_of_length h4.symm).symm

end Frdrpc

namespace Frdrpc

/-- C1: For every recommendation report, the sequence of recommendations
emitted by `rpcResponse` is sorted ascending by the recommendation's
(narrowed) metric value, and the sort is stable: the recommendations of
any fixed value appear in the output in exactly the relative order in
which the assembly loop produced them (`assembled report`, the loop's
output in map-iteration order). -/
theorem rpcResponse_sorted_ascending_stable (report : Recommend.Report) :
    ((rpcResponse report).Recommendations.Pairwise recLe) ∧
    (∀ v : ℚ, (rpcResponse report).Recommendations.filter (fun rec => rec.Value == v)
      = (assembled report).filter (fun rec => rec.Value == v)) :=
  ⟨sortRecs_sorted (assembled report), fun v => sortRecs_filter_value v (assembled report)⟩

/-- C2 counterexample: `rpcResponse` is not deterministic across runs.
The two reports below carry the same map entries — two channels with
equal metric value — in the two possible iteration orders, so they are
two runs of `rpcResponse` on the same report; yet the produced
recommendation lists differ (the stable sort preserves the differing tie
order of the iteration). -/
theorem rpcResponse_tie_order_depends_on_iteration :
    List.Perm
      [("a", { Value := 1, RecommendClose := false : Recommend.Recommendation }),
       ("b", { Value := 1, RecommendClose := false : Recommend.Recommendation })]
      [("b", { Value := 1, RecommendClose := false : Recommend.Recommendation }),
       ("a", { Value := 1, RecommendClose := false : Recommend.Recommendation })] ∧
    rpcResponse { TotalChannels := 2, ConsideredChannels := 2,
                  Recommendations := [("a", { Value := 1, RecommendClose := false }),
                                      ("b", { Value := 1, RecommendClose := false })] }
      ≠ rpcResponse { TotalChannels := 2, ConsideredChannels := 2,
                      Recommendations := [("b", { Value := 1, RecommendClose := false }),
                                          ("a", { Value := 1, RecommendClose := false })] } := by
  constructor
  · decide
  · decide

/-- C2 (amended): `rpcResponse` is deterministic across runs provided the
narrowed metric values of the report are pairwise distinct: any two
iteration orders of the same recommendations map (permutations of the
same entries) with the same counters yield element-for-element equal
responses.  When two entries share a narrowed value, the tied pair's
output order follows the unspecified map iteration order, as the
counterexample shows. -/
theorem rpcResponse_deterministic_of_distinct_values (r1 r2 : Recommend.Report)
    (hTot : r1.TotalChannels = r2.TotalChannels)
    (hCons : r1.ConsideredChannels = r2.ConsideredChannels)
    (hperm : List.Perm r1.Recommendations r2.Recommendations)
    (hnd : ((assembled r1).map Recommendation.Value).Nodup) :
    rpcResponse r1 = rpcResponse r2 := by
  have hp : List.Perm (assembled r1) (assembled r2) := hperm.map toRpcRecommendation
  have hperm2 : List.Perm (sortRecs (assembled r1)) (sortRecs (assembled r2)) :=
    ((sortRecs_perm (assembled r1)).trans hp).trans (sortRecs_perm (assembled r2)).symm
  have heq : sortRecs (assembled r1) = sortRecs (assembled r2) := by
    apply List.Perm.eq_of_sorted ?_ (sortRecs_sorted (assembled r1))
      (sortRecs_sorted (assembled r2)) hperm2
    intro a b ha hb hab hba
    have ha1 : a ∈ assembled r1 := (sortRecs_perm (assembled r1)).subset ha
    have hb1 : b ∈ assembled r1 := hp.symm.subset ((sortRecs_perm (assembled r2)).subset hb)
    exact List.inj_on_of_nodup_map hnd ha1 hb1 (le_antisymm hab hba)
  simp only [rpcResponse, hTot, hCons, heq]

/-- Witness for the amended C2: a two-channel report with distinct
values, iterated in both orders, yields the same response. -/
theorem rpcResponse_deterministic_of_distinct_values_witness :
    rpcResponse { TotalChannels := 2, ConsideredChannels := 2,
                  Recommendations := [("a", { Value := 1, RecommendClose := false }),
                                      ("b", { Value := 2, RecommendClose := true })] }
      = rpcResponse { TotalChannels := 2, ConsideredChannels := 2,
                      Recommendations := [("b", { Value := 2, RecommendClose := true }),
                                          ("a", { Value := 1, RecommendClose := false })] } :=
  rpcResponse_deterministic_of_distinct_values _ _ rfl rfl (by decide) (by decide)

end Frdrpc

namespace Frdrpc

/-- C3 counterexample: a request whose metric selector is the `UNKNOWN`
variant is not rejected — `parseRecommendationRequest` has no error
result at all — and the parse produces a config whose metric field still
holds its defaulted zero value. -/
theorem parseRecommendationRequest_unknown_yields_default :
    (parseRecommendationRequest { MinimumMonitored := 100,
                                  Metric := CloseRecommendationRequest_UNKNOWN }).Metric
      = none := by
  decide

/-- C3 (amended): for every close recommendation request whose metric
selector is not one of the five known variants — in particular the
`UNKNOWN` variant — parsing reports no error (the parser is a total
function) and silently produces a config whose metric selector keeps its
zero value. -/
theorem parseRecommendationRequest_unknown_metric_silent (req : CloseRecommendationRequest)
    (h1 : req.Metric ≠ CloseRecommendationRequest_UPTIME)
    (h2 : req.Metric ≠ CloseRecommendationRequest_REVENUE)
    (h3 : req.Metric ≠ CloseRecommendationRequest_INCOMING_VOLUME)
    (h4 : req.Metric ≠ CloseRecommendationRequest_OUTGOING_VOLUME)
    (h5 : req.Metric ≠ CloseRecommendationRequest_TOTAL_VOLUME) :
    (parseRecommendationRequest req).Metric = none := by
  simp [parseRecommendationRequest, h1, h2, h3, h4, h5]

/-- Witness for the amended C3 at the `UNKNOWN` variant. -/
theorem parseRecommendationRequest_unknown_metric_silent_witness :
    (parseRecommendationRequest { MinimumMonitored := 0,
                                  Metric := CloseRecommendationRequest_UNKNOWN }).Metric
      = none :=
  parseRecommendationRequest_unknown_metric_silent _
    (by decide) (by decide) (by decide) (by decide) (by decide)

/-- C4 counterexample: an outlier request carrying the negative
multiplier `-1` is not rejected: `parseOutlierRequest` (which has no
error result) returns the parsed config together with the non-positive
multiplier `-1` unchanged, to be handed to the recommendation engine. -/
theorem parseOutlierRequest_negative_multiplier_passes :
    (parseOutlierRequest { RecRequest := { MinimumMonitored := 0, Metric := 1 },
                           OutlierMultiplier := -1 }).2 = -1 := by
  decide

/-- C4 (amended): `parseOutlierRequest` performs no multiplier
validation: for every outlier request with a negative multiplier the
parse succeeds (no `InvalidArgument` error exists at this layer) and the
negative multiplier is returned unchanged — a non-positive multiplier
does reach the caller that invokes the recommendation engine; only a
zero multiplier is replaced by the default. -/
theorem parseOutlierRequest_no_multiplier_validation (req : OutlierRecommendationsRequest)
    (hneg : req.OutlierMultiplier < 0) :
    (parseOutlierRequest req).2 = req.OutlierMultiplier ∧ (parseOutlierRequest req).2 < 0 := by
  have hne : req.OutlierMultiplier ≠ 0 := ne_of_lt hneg
  refine ⟨?_, ?_⟩ <;> simp [parseOutlierRequest, hne, hneg]

/-- Witness for the amended C4 at multiplier `-2`. -/
theorem parseOutlierRequest_no_multiplier_validation_witness :
    (parseOutlierRequest { RecRequest := { MinimumMonitored := 0, Metric := 1 },
                           OutlierMultiplier := -2 }).2 = -2 ∧
    (parseOutlierRequest { RecRequest := { MinimumMonitored := 0, Metric := 1 },
                           OutlierMultiplier := -2 }).2 < 0 :=
  parseOutlierRequest_no_multiplier_validation _ (by decide)

/-- C6: `parseOutlierRequest` returns the caller-supplied multiplier
whenever the `outlier_multiplier` field is non-zero, and the default
multiplier `recommend.DefaultOutlierMultiplier = 1.5` when the field is
unspecified (zero). -/
theorem parseOutlierRequest_multiplier_default (req : OutlierRecommendationsRequest) :
    (req.OutlierMultiplier ≠ 0 → (parseOutlierRequest req).2 = req.OutlierMultiplier) ∧
    (req.OutlierMultiplier = 0 →
      (parseOutlierRequest req).2 = Recommend.DefaultOutlierMultiplier ∧
      Recommend.DefaultOutlierMultiplier = 1.5) := by
  constructor
  · intro hne
    simp [parseOutlierRequest, hne]
  · intro hz
    refine ⟨?_, by decide⟩
    simp [parseOutlierRequest, hz]

/-- Witness for C6: a non-zero multiplier is returned unchanged and a
zero multiplier falls back to the default `1.5`. -/
theorem parseOutlierRequest_multiplier_default_witness :
    (parseOutlierRequest { RecRequest := { MinimumMonitored := 0, Metric := 1 },
                           OutlierMultiplier := 3 }).2 = 3 ∧
    ((parseOutlierRequest { RecRequest := { MinimumMonitored := 0, Metric := 1 },
                            OutlierMultiplier := 0 }).2 = Recommend.DefaultOutlierMultiplier ∧
      Recommend.DefaultOutlierMultiplier = 1.5) :=
  ⟨(parseOutlierRequest_multiplier_default _).1 (by decide),
   (parseOutlierRequest_multiplier_default _).2 rfl⟩

/-- C7 counterexample: for the out-of-range metric value `7` (proto3
enums are open) `parseRecommendationRequest` installs no metric selector
at all, refuting "installs exactly one metric selector" for every
request. -/
theorem parseRecommendationRequest_out_of_range_no_selector :
    ((parseRecommendationRequest { MinimumMonitored := 0, Metric := 7 }).Metric).isSome
      = false := by
  decide

/-- C7 (amended): for every recommendation request whose metric is one
of the five known variants, `parseRecommendationRequest` installs
exactly one metric selector, and the mapping is the identity on
variants: `UPTIME` yields the uptime metric, `REVENUE` the revenue
metric, `INCOMING_VOLUME` the incoming-volume metric, `OUTGOING_VOLUME`
the outgoing-volume metric, and `TOTAL_VOLUME` the total-volume metric.
Requests outside the five variants leave the selector unset, see the
counterexample. -/
theorem parseRecommendationRequest_metric_identity (req : CloseRecommendationRequest) :
    (req.Metric = CloseRecommendationRequest_UPTIME →
      (parseRecommendationRequest req).Metric = some MetricKind.UptimeMetric) ∧
    (req.Metric = CloseRecommendationRequest_REVENUE →
      (parseRecommendationRequest req).Metric = some MetricKind.RevenueMetric) ∧
    (req.Metric = CloseRecommendationRequest_INCOMING_VOLUME →
      (parseRecommendationRequest req).Metric = some MetricKind.IncomingVolume) ∧
    (req.Metric = CloseRecommendationRequest_OUTGOING_VOLUME →
      (parseRecommendationRequest req).Metric = some MetricKind.OutgoingVolume) ∧
    (req.Metric = CloseRecommendationRequest_TOTAL_VOLUME →
      (parseRecommendationRequest req).Metric = some MetricKind.Volume) := by
  refine ⟨?_, ?_, ?_, ?_, ?_⟩ <;> intro h <;>
    simp [parseRecommendationRequest, h, CloseRecommendationRequest_UPTIME,
      CloseRecommendationRequest_REVENUE, CloseRecommendationRequest_INCOMING_VOLUME,
      CloseRecommendationRequest_OUTGOING_VOLUME, CloseRecommendationRequest_TOTAL_VOLUME]

/-- Witness for the amended C7 at the `UPTIME` and `TOTAL_VOLUME`
variants. -/
theorem parseRecommendationRequest_metric_identity_witness :
    (parseRecommendationRequest { MinimumMonitored := 0,
                                  Metric := CloseRecommendationRequest_UPTIME }).Metric
      = some MetricKind.UptimeMetric ∧
    (parseRecommendationRequest { MinimumMonitored := 0,
                                  Metric := CloseRecommendationRequest_TOTAL_VOLUME }).Metric
      = some MetricKind.Volume :=
  ⟨(parseRecommendationRequest_metric_identity _).1 rfl,
   (parseRecommendationRequest_metric_identity _).2.2.2.2 rfl⟩

end Frdrpc

namespace Frdrpc

/-- C5 counterexample: a report with `2^31` total channels, none of them
considered, and an empty (hence trivially one-entry-per-channel)
recommendations map satisfies the claim's premises, but the
`int32`-narrowed counts in the response violate considered ≤ total: the
total wraps to `-2^31` while the considered count stays `0`. -/
theorem rpcResponse_count_narrowing_overflow :
    ({ TotalChannels := 2147483648, ConsideredChannels := 0, Recommendations := []
       : Recommend.Report }).ConsideredChannels
      ≤ ({ TotalChannels := 2147483648, ConsideredChannels := 0, Recommendations := []
           : Recommend.Report }).TotalChannels ∧
    ¬ ((rpcResponse { TotalChannels := 2147483648, ConsideredChannels := 0,
                      Recommendations := [] }).ConsideredChannels
        ≤ (rpcResponse { TotalChannels := 2147483648, ConsideredChannels := 0,
                         Recommendations := [] }).TotalChannels) := by
  decide

/-- C5 (amended): for every report whose counts satisfy
`0 ≤ considered ≤ total` and additionally fit in `int32`
(`total < 2^31 = 2147483648` — without this the narrowing can invert the
counts, see the counterexample) and whose recommendations map has
distinct keys (one entry per eligible channel), the response satisfies
considered ≤ total after narrowing, every chan_point in its
recommendation list is distinct, and the list carries exactly one entry
per entry of the report's recommendations map. -/
theorem rpcResponse_counts_distinct_entries (report : Recommend.Report)
    (h0 : 0 ≤ report.ConsideredChannels)
    (h1 : report.ConsideredChannels ≤ report.TotalChannels)
    (h2 : report.TotalChannels < 2147483648)
    (hkeys : (report.Recommendations.map Prod.fst).Nodup) :
    (rpcResponse report).ConsideredChannels ≤ (rpcResponse report).TotalChannels ∧
    ((rpcResponse report).Recommendations.map Recommendation.ChanPoint).Nodup ∧
    List.Perm (rpcResponse report).Recommendations (assembled report) := by
  refine ⟨?_, ?_, sortRecs_perm (assembled report)⟩
  · show wrap32 report.ConsideredChannels ≤ wrap32 report.TotalChannels
    rw [wrap32_eq_self report.ConsideredChannels (by omega) (by omega),
        wrap32_eq_self report.TotalChannels (by omega) (by omega)]
    exact h1
  · have hmap : (assembled report).map Recommendation.ChanPoint
        = report.Recommendations.map Prod.fst := by
      unfold assembled
      rw [List.map_map]
      rfl
    have hnd : ((assembled report).map Recommendation.ChanPoint).Nodup := by
      rw [hmap]
      exact hkeys
    exact (((sortRecs_perm (assembled report)).map Recommendation.ChanPoint).symm).nodup hnd

/-- Witness for the amended C5: a three-channel report with two
considered channels and two map entries. -/
theorem rpcResponse_counts_distinct_entries_witness :
    (rpcResponse { TotalChannels := 3, ConsideredChannels := 2,
                   Recommendations := [("x", { Value := 2, RecommendClose := false }),
                                       ("y", { Value := 1, RecommendClose := true })] }).ConsideredChannels
      ≤ (rpcResponse { TotalChannels := 3, ConsideredChannels := 2,
                       Recommendations := [("x", { Value := 2, RecommendClose := false }),
                                           ("y", { Value := 1, RecommendClose := true })] }).TotalChannels ∧
    ((rpcResponse { TotalChannels := 3, ConsideredChannels := 2,
                    Recommendations := [("x", { Value := 2, RecommendClose := false }),
                                        ("y", { Value := 1, RecommendClose := true })] }).Recommendations.map
        Recommendation.ChanPoint).Nodup ∧
    List.Perm
      (rpcResponse { TotalChannels := 3, ConsideredChannels := 2,
                     Recommendations := [("x", { Value := 2, RecommendClose := false }),
                                         ("y", { Value := 1, RecommendClose := true })] }).Recommendations
      (assembled { TotalChannels := 3, ConsideredChannels := 2,
                   Recommendations := [("x", { Value := 2, RecommendClose := false }),
                                       ("y", { Value := 1, RecommendClose := true })] }) :=
  rpcResponse_counts_distinct_entries _ (by decide) (by decide) (by decide) (by decide)

/-- C8 counterexample: at `minimum_monitored = -1` the configured
duration is exactly `-10^9` nanoseconds, i.e. exactly the requested `-1`
seconds: no wrap occurs, contradicting the claim that negative values
wrap and yield a duration different from the requested number of
seconds. -/
theorem parseRecommendationRequest_negative_exact_seconds :
    (parseRecommendationRequest { MinimumMonitored := -1, Metric := 1 }).MinimumMonitored
      = 1000000000 * (-1) := by
  decide

/-- C8 (amended): `parseRecommendationRequest` sets the config's
`MinimumMonitored` to the request's `minimum_monitored` multiplied by
`10^9` nanoseconds in wrapping signed 64-bit arithmetic.  The product is
exact — the duration equals the requested number of seconds — for every
`minimum_monitored` with `|m| ≤ 9223372036` (negative values of small
magnitude included, see the counterexample), and wraps to a different
value for every other `m` in the `int64` range
`[-9223372036854775808, 9223372036854775808)`. -/
theorem parseRecommendationRequest_minimum_monitored (req : CloseRecommendationRequest) :
    (parseRecommendationRequest req).MinimumMonitored
      = wrap64 (1000000000 * req.MinimumMonitored) ∧
    (-9223372036 ≤ req.MinimumMonitored → req.MinimumMonitored ≤ 9223372036 →
      (parseRecommendationRequest req).MinimumMonitored = 1000000000 * req.MinimumMonitored) ∧
    (-9223372036854775808 ≤ req.MinimumMonitored →
      req.MinimumMonitored < 9223372036854775808 →
      (9223372036 < req.MinimumMonitored ∨ req.MinimumMonitored < -9223372036) →
      (parseRecommendationRequest req).MinimumMonitored ≠ 1000000000 * req.MinimumMonitored) := by
  refine ⟨rfl, ?_, ?_⟩
  · intro hlo hhi
    show wrap64 (1000000000 * req.MinimumMonitored) = 1000000000 * req.MinimumMonitored
    exact wrap64_eq_self _ (by omega) (by omega)
  · intro hlo hhi hout hW
    have h1 := wrap64_lb (1000000000 * req.MinimumMonitored)
    have h2 := wrap64_ub (1000000000 * req.MinimumMonitored)
    have hE : wrap64 (1000000000 * req.MinimumMonitored)
        = 1000000000 * req.MinimumMonitored := hW
    omega

/-- Witness for the amended C8: the duration is exact at `5` seconds and
wraps at `9223372037` seconds. -/
theorem parseRecommendationRequest_minimum_monitored_witness :
    (parseRecommendationRequest { MinimumMonitored := 5, Metric := 1 }).MinimumMonitored
      = 1000000000 * 5 ∧
    (parseRecommendationRequest { MinimumMonitored := 9223372037,
                                  Metric := 1 }).MinimumMonitored
      ≠ 1000000000 * 9223372037 :=
  ⟨(parseRecommendationRequest_minimum_monitored _).2.1 (by decide) (by decide),
   (parseRecommendationRequest_minimum_monitored _).2.2 (by decide) (by decide)
     (Or.inl (by decide))⟩

/-- C9: `rpcResponse` narrows every recommendation's 64-bit
floating-point metric value to 32 bits and sorts by the narrowed value.
In the report below the two recommendations carry the distinct `float64`
values `1 + 2^-30` (31 significand bits, exactly representable in
`float64` but not in `float32`) and `1`; both narrow to the `float32`
value `1`, so the response reports the two values as equal and keeps the
tied pair in assembly order (`"a"` before `"b"`) rather than in their
true `float64` order (which would put `"b"`'s strictly smaller value
first). -/
theorem rpcResponse_narrows_values_to_float32 :
    ((1 : ℚ) + 1 / 2 ^ 30 ≠ 1) ∧
    f32round (1 + 1 / 2 ^ 30) = f32round 1 ∧
    rpcResponse { TotalChannels := 2, ConsideredChannels := 2,
                  Recommendations := [("a", { Value := 1 + 1 / 2 ^ 30, RecommendClose := false }),
                                      ("b", { Value := 1, RecommendClose := false })] }
      = { TotalChannels := 2, ConsideredChannels := 2,
          Recommendations := [{ ChanPoint := "a", Value := 1, RecommendClose := false },
                              { ChanPoint := "b", Value := 1, RecommendClose := false }] } := by
  refine ⟨by decide, by decide, by decide⟩

/-- The assembly loop of `rpcResponse`, which appends one entry per
visited map entry, equals a single append of the mapped entry list. -/
theorem foldl_append_recommendations (l : List (String × Recommend.Recommendation))
    (r : CloseRecommendationsResponse) :
    l.foldl (fun r p => { r with Recommendations := r.Recommendations ++ [toRpcRecommendation p] }) r
      = { r with Recommendations := r.Recommendations ++ l.map toRpcRecommendation } := by
  induction l generalizing r with
  | nil => simp
  | cons p t ih =>
    simp only [List.foldl_cons, List.map_cons, ih, List.append_assoc, List.singleton_append]

/-- C10: `rpcResponse` does not modify its input.  In the
statement-level reading of the body (`rpcResponseProg`: allocate the
response, run the append loop, sort), every statement writes only the
freshly allocated response, so the report component of the state — its
counts and every key, value and recommend-close flag of its
recommendations map — is unchanged, and the response component is
exactly the value computed by the functional `rpcResponse`. -/
theorem rpcResponseProg_preserves_report (s : RpcState) :
    (rpcResponseProg s).report = s.report ∧
    (rpcResponseProg s).resp = some (rpcResponse s.report) := by
  constructor
  · rfl
  · simp [rpcResponseProg, stmtAllocResp, stmtAppendLoop, stmtSortRecommendations,
      foldl_append_recommendations, rpcResponse, assembled]

end Frdrpc
